import Mathlib

/-!
Verification of the `spotcli` Spotify client-credentials wrapper
(`src/spotcli/spotify.py`, `src/spotcli/exception.py`): credential
resolution in `Spotify.__init__`, the lazily created and cached HTTP
session with its retry and pooling policy, and the cached access-token
lifecycle of the `token` property.

Times (`time()`) are modelled as integers; the float literal `0.1` in the
retry policy is modelled by the rational number it denotes.
-/

deriving instance DecidableEq for Except

/-- The standard base64 alphabet, as used by `base64.b64encode`. -/
def base64Alphabet : List Char :=
  "ABCDEFGHIJKLMNOPQRSTUVWXYZabcdefghijklmnopqrstuvwxyz0123456789+/".toList

/-- The base64 digit for a 6-bit group. -/
def b64Char (n : Nat) : Char := base64Alphabet.getD n '='

/-- `base64.b64encode` over a list of bytes, producing the padded ASCII
string: every group of three bytes becomes four 6-bit digits, a trailing
group of one or two bytes is padded with `=`. -/
def b64encode : List Nat → String
  | [] => ""
  | [a] => String.mk [b64Char (a / 4), b64Char (a % 4 * 16), '=', '=']
  | [a, b] =>
      String.mk [b64Char (a / 4), b64Char (a % 4 * 16 + b / 16),
        b64Char (b % 16 * 4), '=']
  | a :: b :: c :: rest =>
      String.mk [b64Char (a / 4), b64Char (a % 4 * 16 + b / 16),
        b64Char (b % 16 * 4 + c / 64), b64Char (c % 64)] ++ b64encode rest

/-- UTF-8 encoding of a single code point, as `bytes(s, encoding="utf-8")`
produces it. -/
def utf8EncodeChar (c : Char) : List Nat :=
  let n := c.toNat
  if n < 128 then [n]
  else if n < 2048 then [192 + n / 64, 128 + n % 64]
  else if n < 65536 then [224 + n / 4096, 128 + n / 64 % 64, 128 + n % 64]
  else [240 + n / 262144, 128 + n / 4096 % 64, 128 + n / 64 % 64, 128 + n % 64]

/-- The UTF-8 bytes of a string. -/
def utf8Bytes (s : String) : List Nat := (s.data.map utf8EncodeChar).flatten

/-- Modelled from the spec: the configuration module `spotcli/config.py` is
not among the sources; per the spec it resolves the client identifier, the
client secret and the token endpoint URL once at module load, from the
process environment. `none` models an unset value, `some ""` an empty one.
`cpuCount` is the value `os.cpu_count()` reports on the host (`none` when
undetermined). -/
structure Config where
  CLIENT_ID : Option String
  CLIENT_SECRET : Option String
  TOKEN_URL : String
  cpuCount : Option Nat
deriving DecidableEq

/-- The exceptions the modelled operations can raise. `clientException` and
`spotbitException` come from `spotcli/exception.py`; `jsonDecodeError`
models the decoding error `res.json()` raises on a body that is not JSON
(per the spec's design notes it is not a `RequestException`, so the
`except RequestException` handler does not catch it); `typeError` models
Python's `TypeError` from `None + now`; `attributeError` models `getattr`
on an attribute that was never set. -/
inductive PyError where
  | clientException (msg : String)
  | spotbitException (msg : String)
  | jsonDecodeError
  | typeError
  | attributeError
deriving DecidableEq

/-- The two fields the client reads from the token endpoint's JSON body.
`none` models a missing key: `dict.get` returns `None` for it. -/
structure TokenResponse where
  access_token : Option String
  expires_in : Option Int
deriving DecidableEq

/-- The body of an HTTP response: either `res.json()` parses it (only the
two relevant fields are modelled) or it fails on it. -/
inductive Body where
  | json (tr : TokenResponse)
  | malformed
deriving DecidableEq

/-- The outcome the network would produce for a
`self.session.post(TOKEN_URL, ...)` call: a transport-level
`RequestException` (connection refused, retries exhausted at the adapter
level, ...) or an HTTP response with a status code and a body. -/
inductive PostResult where
  | transportError
  | response (status : Nat) (body : Body)
deriving DecidableEq

/-- The observable content of one POST made to the token endpoint. -/
structure Request where
  method : String
  url : String
  data : List (String × String)
  authorization : String
deriving DecidableEq

def HTTPStatus.REQUEST_TIMEOUT : Nat := 408
def HTTPStatus.INTERNAL_SERVER_ERROR : Nat := 500
def HTTPStatus.BAD_GATEWAY : Nat := 502
def HTTPStatus.SERVICE_UNAVAILABLE : Nat := 503
def HTTPStatus.GATEWAY_TIMEOUT : Nat := 504

/-- The `urllib3.Retry` configuration built by the `session` property. The
source's float literal `0.1` is modelled by the rational `1/10` it
denotes. -/
structure Retry where
  total : Nat
  backoff_factor : Rat
  status_forcelist : List Nat
deriving DecidableEq

/-- The `requests.adapters.HTTPAdapter` configuration. -/
structure HTTPAdapter where
  max_retries : Retry
  pool_connections : Nat
  pool_maxsize : Nat
deriving DecidableEq

/-- A `requests.Session`: `sid` models Python object identity (each call to
`requests.Session()` yields a fresh one), `mounts` the scheme-to-adapter
mounts performed on it. -/
structure Session where
  sid : Nat
  mounts : List (String × HTTPAdapter)
deriving DecidableEq

/-- Python's `os.cpu_count() or 1`: both `None` and `0` are falsy. -/
def cpuCountOrOne : Option Nat → Nat
  | none => 1
  | some 0 => 1
  | some (n + 1) => n + 1

/-- The session constructed on first access of the `session` property:
retry total 5, back-off factor 0.1, the five listed retryable statuses, a
pool sized `(os.cpu_count() or 1) * 5` for both connection count and max
size, and the adapter mounted on `https://` only (the `http://` mount is
commented out in the source). -/
def buildSession (cfg : Config) (sid : Nat) : Session :=
  { sid := sid
    mounts := [("https://",
      { max_retries :=
          { total := 5
            backoff_factor := mkRat 1 10
            status_forcelist :=
              [HTTPStatus.REQUEST_TIMEOUT, HTTPStatus.INTERNAL_SERVER_ERROR,
               HTTPStatus.BAD_GATEWAY, HTTPStatus.SERVICE_UNAVAILABLE,
               HTTPStatus.GATEWAY_TIMEOUT] }
        pool_connections := cpuCountOrOne cfg.cpuCount * 5
        pool_maxsize := cpuCountOrOne cfg.cpuCount * 5 })] }

/-- The mutable attributes of a `Spotify` instance. `_session`, `_token`
and `_expires_in` are only created with `setattr` when first needed, so
each is wrapped in an outer `Option` meaning `hasattr`. The value stored
in `_token` is `token.get("access_token")`, which is itself `None` when
the key is missing, hence the inner `Option`. `nextSid` supplies fresh
identities for `requests.Session()` objects. -/
structure SpotifyState where
  client_id : String
  client_secret : String
  _session : Option Session
  nextSid : Nat
  _token : Option (Option String)
  _expires_in : Option Int
deriving DecidableEq

/-- Python truthiness of an optional string: `None` and `""` are falsy. -/
def pyTruthy : Option String → Bool
  | none => false
  | some s => !s.isEmpty

/-- How f-string interpolation renders an optional string. -/
def pyStr : Option String → String
  | none => "None"
  | some s => s

/-- The attribute record of a freshly constructed instance with resolved
credentials: no session, no token, no expiry have been set yet. -/
def freshState (cid csec : String) : SpotifyState :=
  { client_id := cid, client_secret := csec, _session := none, nextSid := 0,
    _token := none, _expires_in := none }

/-- One credential of `Spotify.__init__`: keep the argument when truthy,
fall back to the configuration value when truthy, otherwise raise
`ClientException` with the message the source formats. -/
def resolveCred (arg fallback : Option String) (label : String) :
    Except PyError String :=
  if pyTruthy arg then .ok (arg.getD "")
  else if pyTruthy fallback then .ok (fallback.getD "")
  else .error (.clientException ("Got " ++ label ++ " " ++ pyStr fallback ++
    ". Either specify as env variables or pass it directly."))

namespace Spotify

/-- `Spotify.__init__`: resolve the client id first, then the secret, each
falling back to the configuration value; raise `ClientException` when both
the argument and the fallback are falsy. The constructor performs no I/O;
the empty list records that no request is made. -/
def init (cfg : Config) (client_id client_secret : Option String) :
    Except PyError SpotifyState × List Request :=
  match resolveCred client_id cfg.CLIENT_ID "Client ID" with
  | .error e => (.error e, [])
  | .ok cid =>
      match resolveCred client_secret cfg.CLIENT_SECRET "Client Secret" with
      | .error e => (.error e, [])
      | .ok csec => (.ok (freshState cid csec), [])

/-- `Spotify._encode`: base64 of the UTF-8 bytes of
`client_id + ":" + client_secret`. -/
def _encode (client_id client_secret : String) : String :=
  b64encode (utf8Bytes (client_id ++ ":" ++ client_secret))

/-- The POST the `token` property prepares before deciding whether to fetch:
the token URL, the `grant_type=client_credentials` form body and the
`Authorization: Basic <base64(id:secret)>` header. -/
def tokenRequest (cfg : Config) (st : SpotifyState) : Request :=
  { method := "POST", url := cfg.TOKEN_URL
    data := [("grant_type", "client_credentials")]
    authorization := "Basic " ++ _encode st.client_id st.client_secret }

/-- The `session` property: create the configured session and cache it in
the `_session` attribute on first access, return the cached session on
every later access. -/
def session (cfg : Config) (st : SpotifyState) : Session × SpotifyState :=
  match st._session with
  | some s => (s, st)
  | none =>
      let s := buildSession cfg st.nextSid
      (s, { st with _session := some s, nextSid := st.nextSid + 1 })

/-- The inner `_get_token` closure of the `token` property: POST to the
token URL, parse the body with `res.json()`, then `res.raise_for_status()`;
any `RequestException` in the block becomes
`SpotbitException("Got error when trying to acquire token")`.
A malformed body raises the JSON decoding error before the status is ever
checked, and that error escapes the handler; `raise_for_status` raises
exactly for statuses 400-599. -/
def _get_token (net : PostResult) : Except PyError TokenResponse :=
  match net with
  | .transportError =>
      .error (.spotbitException "Got error when trying to acquire token")
  | .response _ .malformed => .error .jsonDecodeError
  | .response status (.json tr) =>
      if 400 ≤ status ∧ status < 600 then
        .error (.spotbitException "Got error when trying to acquire token")
      else .ok tr

/-- The `token` property. `now` is the value `time()` returns at the start
of the access, `net` the outcome the network would produce for a POST.
Returns the property's result (the stored `_token` value, or the raised
exception), the updated attributes, and the list of POSTs attempted.
Mirrors the source: if `_token` was never set, fetch, store
`token.get("access_token")`, then store `token.get("expires_in") + now`
(a `TypeError` when `expires_in` is missing, with `_token` already
overwritten); if `_token` is set and `now > _expires_in`, do the same
refresh; otherwise return the cached value without touching the network. -/
def token (cfg : Config) (st : SpotifyState) (now : Int) (net : PostResult) :
    Except PyError (Option String) × SpotifyState × List Request :=
  let req : Request := tokenRequest cfg st
  match st._token with
  | none =>
      let st1 := (session cfg st).2
      match _get_token net with
      | .error e => (.error e, st1, [req])
      | .ok tr =>
          let st2 := { st1 with _token := some tr.access_token }
          match tr.expires_in with
          | none => (.error .typeError, st2, [req])
          | some e =>
              (.ok tr.access_token,
               { st2 with _expires_in := some (e + now) }, [req])
  | some cached =>
      match st._expires_in with
      | none => (.error .attributeError, st, [])
      | some exp =>
          if now > exp then
            let st1 := (session cfg st).2
            match _get_token net with
            | .error e => (.error e, st1, [req])
            | .ok tr =>
                let st2 := { st1 with _token := some tr.access_token }
                match tr.expires_in with
                | none => (.error .typeError, st2, [req])
                | some e =>
                    (.ok tr.access_token,
                     { st2 with _expires_in := some (e + now) }, [req])
          else (.ok cached, st, [])

end Spotify

/-- Thread a sequence of `token` property reads, each given its `time()`
value and the network outcome it would see; collect the results, the final
attribute state, and every POST attempted along the way. -/
def readTokens (cfg : Config) :
    SpotifyState → List (Int × PostResult) →
      List (Except PyError (Option String)) × SpotifyState × List Request
  | st, [] => ([], st, [])
  | st, (t, net) :: rest =>
      let r := Spotify.token cfg st t net
      let rs := readTokens cfg r.2.1 rest
      (r.1 :: rs.1, rs.2.1, r.2.2 ++ rs.2.2)

/-- Every `expires_in` the outcome `net` could hand back is a nonnegative
number of seconds, as the spec's external-interface contract describes the
server-reported time-to-live. -/
def ttlNonneg : PostResult → Bool
  | .response _ (.json tr) =>
      match tr.expires_in with
      | some e => decide (0 ≤ e)
      | none => true
  | _ => true

/-- A client that cached the token `"abc"` at time 0 with lifetime 3600
seconds, its session already created. -/
def cachedAt0 : SpotifyState :=
  { client_id := "id", client_secret := "secret"
    _session := some (buildSession ⟨none, none, "url", none⟩ 0), nextSid := 1
    _token := some (some "abc"), _expires_in := some 3600 }

/-! ## General lemmas about the embedded operations -/

/-- The base64 encoding the client computes for the credentials `id`,
`secret` agrees with the standard value. -/
theorem b64encode_id_secret :
    b64encode (utf8Bytes "id:secret") = "aWQ6c2VjcmV0" := by decide

/-- `(os.cpu_count() or 1)` is the number of processing units, with a
minimum of 1. -/
theorem cpuCountOrOne_eq (c : Option Nat) :
    cpuCountOrOne c = max 1 (c.getD 1) := by
  match c with
  | none => rfl
  | some 0 => rfl
  | some (n + 1) =>
      simp only [cpuCountOrOne, Option.getD]
      omega

/-- Accessing the `session` property never touches the token attributes. -/
theorem session_preserves_token_attrs (cfg : Config) (st : SpotifyState) :
    (Spotify.session cfg st).2._token = st._token ∧
    (Spotify.session cfg st).2._expires_in = st._expires_in := by
  unfold Spotify.session
  cases h : st._session <;> simp

/-- A cached, unexpired token is returned as is: no request, no state
change. -/
theorem token_cached_read (cfg : Config) (st : SpotifyState) (now : Int)
    (net : PostResult) (tok : Option String) (e : Int)
    (htok : st._token = some tok) (hexp : st._expires_in = some e)
    (hnow : ¬ now > e) :
    Spotify.token cfg st now net = (.ok tok, st, []) := by
  simp only [Spotify.token, htok, hexp]
  rw [if_neg hnow]

/-- A fetch from the token-unset state with a success status and a complete
body stores the token and the absolute expiry and returns the token. -/
theorem token_first_fetch_success (cfg : Config) (st : SpotifyState)
    (now e : Int) (tok : Option String) (status : Nat)
    (htok : st._token = none) (hstatus : status < 400) :
    Spotify.token cfg st now (.response status (.json ⟨tok, some e⟩)) =
      (.ok tok,
       { (Spotify.session cfg st).2 with
           _token := some tok
           _expires_in := some (e + now) },
       [Spotify.tokenRequest cfg st]) := by
  simp only [Spotify.token, htok, Spotify._get_token]
  rw [if_neg (by omega : ¬ (400 ≤ status ∧ status < 600))]

/-- A fetch from an expired cached state with a success status and a
complete body overwrites the token and expiry and returns the new token. -/
theorem token_refresh_success (cfg : Config) (st : SpotifyState)
    (now e e2 : Int) (cached tok2 : Option String) (status : Nat)
    (htok : st._token = some cached) (hexp : st._expires_in = some e)
    (hnow : now > e) (hstatus : status < 400) :
    Spotify.token cfg st now (.response status (.json ⟨tok2, some e2⟩)) =
      (.ok tok2,
       { (Spotify.session cfg st).2 with
           _token := some tok2
           _expires_in := some (e2 + now) },
       [Spotify.tokenRequest cfg st]) := by
  simp only [Spotify.token, htok, hexp, Spotify._get_token]
  rw [if_pos hnow, if_neg (by omega : ¬ (400 ≤ status ∧ status < 600))]

/-- If `_get_token` succeeds and the outcome only carries nonnegative
lifetimes, the returned `expires_in` is nonnegative. -/
theorem ttl_of_get_token (net : PostResult) (tr : TokenResponse) (e : Int)
    (hok : Spotify._get_token net = .ok tr) (httl : ttlNonneg net = true)
    (he : tr.expires_in = some e) : 0 ≤ e := by
  cases net with
  | transportError => simp [Spotify._get_token] at hok
  | response status body =>
      cases body with
      | malformed => simp [Spotify._get_token] at hok
      | json tr2 =>
          simp only [Spotify._get_token] at hok
          split at hok
          · simp at hok
          · simp only [Except.ok.injEq] at hok
            subst hok
            simp only [ttlNonneg, he] at httl
            exact of_decide_eq_true httl

/-- For the failure modes the `except RequestException` handler does catch
— a transport-level error, or a 400-599 status whose body parses as JSON —
any `token` access leaves the `_token` and `_expires_in` attributes exactly
as they were, and if a POST was attempted the raised exception is the
`SpotbitException` with the source's message. -/
theorem token_caught_failure_preserves (cfg : Config) (st : SpotifyState)
    (now : Int) (net : PostResult)
    (hfail : net = .transportError ∨
      ∃ status tr, net = .response status (.json tr) ∧
        400 ≤ status ∧ status < 600) :
    (Spotify.token cfg st now net).2.1._token = st._token ∧
    (Spotify.token cfg st now net).2.1._expires_in = st._expires_in ∧
    ((Spotify.token cfg st now net).2.2 ≠ [] →
      (Spotify.token cfg st now net).1 =
        .error (.spotbitException "Got error when trying to acquire token")) := by
  have hget : Spotify._get_token net =
      .error (.spotbitException "Got error when trying to acquire token") := by
    rcases hfail with rfl | ⟨status, tr, rfl, h1, h2⟩
    · rfl
    · simp [Spotify._get_token, h1, h2]
  obtain ⟨hs1, hs2⟩ := session_preserves_token_attrs cfg st
  cases htok : st._token with
  | none =>
      simp only [Spotify.token, htok, hget]
      simp [hs1, hs2, htok]
  | some cached =>
      cases hexp : st._expires_in with
      | none => simp [Spotify.token, htok, hexp]
      | some e =>
          by_cases hnow : now > e
          · simp only [Spotify.token, htok, hexp, hget, if_pos hnow]
            simp [hs1, hs2, htok, hexp]
          · simp [Spotify.token, htok, hexp, if_neg hnow]

/-- As long as the cached token is unexpired at every read time, a sequence
of reads returns the cached value at each step, attempts no POST, and
leaves the state untouched. -/
theorem readTokens_cached (cfg : Config) (st : SpotifyState)
    (tok : Option String) (e : Int) (reads : List (Int × PostResult))
    (htok : st._token = some tok) (hexp : st._expires_in = some e)
    (hts : ∀ p ∈ reads, ¬ p.1 > e) :
    readTokens cfg st reads = (reads.map fun _ => .ok tok, st, []) := by
  induction reads with
  | nil => rfl
  | cons p rest ih =>
      obtain ⟨t, net⟩ := p
      have h1 := token_cached_read cfg st t net tok e htok hexp
        (hts (t, net) (List.mem_cons_self _ _))
      simp only [readTokens, h1, List.map_cons]
      rw [ih (fun q hq => hts q (List.mem_cons_of_mem _ hq))]
      rfl

/-! ## The claims -/

/-- C1 (counterexample): with the token `"abc"` cached at time `T = 0` with
lifetime 3600, a read at exactly `T + 3600` makes no token-endpoint request
and overwrites nothing — the source's expiry test `now > self._expires_in`
is strict, so an access *at* `T + 3600` still returns the cached token,
refuting the claim's "at any time at or after `T+3600`". -/
theorem C1_counterexample :
    Spotify.token ⟨none, none, "url", none⟩ cachedAt0 3600
        (.response 200 (.json ⟨some "xyz", some 3600⟩)) =
      (.ok (some "abc"), cachedAt0, []) := by decide

/-- C1 (amended): with a cached token whose stored expiry is `T + 3600`, a
read at any time strictly after `T + 3600` attempts exactly one new
token-endpoint request and, on a success response, overwrites both the
cached access token and the cached expiry with the values derived from that
response. -/
theorem C1_refresh_strictly_after (cfg : Config) (st : SpotifyState)
    (T now e2 : Int) (tok tok2 : Option String) (status : Nat)
    (htok : st._token = some tok) (hexp : st._expires_in = some (T + 3600))
    (hnow : T + 3600 < now) (hstatus : status < 400) :
    Spotify.token cfg st now (.response status (.json ⟨tok2, some e2⟩)) =
      (.ok tok2,
       { (Spotify.session cfg st).2 with
           _token := some tok2
           _expires_in := some (e2 + now) },
       [Spotify.tokenRequest cfg st]) :=
  token_refresh_success cfg st now (T + 3600) e2 tok tok2 status htok hexp
    hnow hstatus

/-- Witness for the amended C1 at a concrete input: cached at `T = 0`, read
at `3601`. -/
theorem C1_refresh_strictly_after_witness :
    Spotify.token ⟨none, none, "url", none⟩ cachedAt0 3601
        (.response 200 (.json ⟨some "xyz", some 3600⟩)) =
      (.ok (some "xyz"),
       { (Spotify.session ⟨none, none, "url", none⟩ cachedAt0).2 with
           _token := some (some "xyz")
           _expires_in := some (3600 + 3601) },
       [Spotify.tokenRequest ⟨none, none, "url", none⟩ cachedAt0]) :=
  C1_refresh_strictly_after ⟨none, none, "url", none⟩ cachedAt0 0 3601 3600
    (some "abc") (some "xyz") 200 rfl (by decide) (by decide) (by decide)

/-- The C2 failing input evaluated concretely: a fresh client whose token
POST returns HTTP 500 with a body that is not JSON. Because `res.json()`
runs before `res.raise_for_status()`, the access raises the JSON decoding
error instead of `SpotbitException`; the `_token` and `_expires_in`
attributes are still untouched. -/
theorem C2_non2xx_malformed_body :
    (Spotify.token ⟨none, none, "url", none⟩ (freshState "id" "secret") 0
        (.response 500 .malformed)).1 = .error .jsonDecodeError ∧
    (Spotify.token ⟨none, none, "url", none⟩ (freshState "id" "secret") 0
        (.response 500 .malformed)).2.1._token = none ∧
    (Spotify.token ⟨none, none, "url", none⟩ (freshState "id" "secret") 0
        (.response 500 .malformed)).2.1._expires_in = none := by decide

/-- C2, generally: for every client state in which the access fetches
(token never set, or cached and expired) and every response status, a body
`res.json()` cannot parse makes the accessor raise the JSON decoding error
— not `SpotbitException` — because `res.json()` runs before
`res.raise_for_status()`; the stored `_token` and `_expires_in` attributes
are exactly as they were before the access. -/
theorem C2_malformed_failure_decode_error (cfg : Config) (st : SpotifyState)
    (now : Int) (status : Nat)
    (hfetch : st._token = none ∨
      ∃ cached e, st._token = some cached ∧ st._expires_in = some e ∧
        e < now) :
    (Spotify.token cfg st now (.response status .malformed)).1 =
      .error .jsonDecodeError ∧
    (Spotify.token cfg st now (.response status .malformed)).2.1._token =
      st._token ∧
    (Spotify.token cfg st now (.response status .malformed)).2.1._expires_in =
      st._expires_in := by
  obtain ⟨hs1, hs2⟩ := session_preserves_token_attrs cfg st
  rcases hfetch with h | ⟨cached, e, htok, hexp, he⟩
  · simp only [Spotify.token, h, Spotify._get_token]
    simp [hs1, hs2, h]
  · simp only [Spotify.token, htok, hexp, Spotify._get_token]
    rw [if_pos (by omega : now > e)]
    simp [hs1, hs2, htok, hexp]

/-- Witness for the general C2 theorem at its failing input: a fresh client
and a 500 response with a malformed body. -/
theorem C2_malformed_failure_decode_error_witness :
    (Spotify.token ⟨none, none, "url", none⟩ (freshState "id" "secret") 0
        (.response 500 .malformed)).1 = .error .jsonDecodeError ∧
    (Spotify.token ⟨none, none, "url", none⟩ (freshState "id" "secret") 0
        (.response 500 .malformed)).2.1._token =
      (freshState "id" "secret")._token ∧
    (Spotify.token ⟨none, none, "url", none⟩ (freshState "id" "secret") 0
        (.response 500 .malformed)).2.1._expires_in =
      (freshState "id" "secret")._expires_in :=
  C2_malformed_failure_decode_error ⟨none, none, "url", none⟩
    (freshState "id" "secret") 0 500 (Or.inl rfl)

/-- C3 at its failing input: a token POST that answers with a success
status but a body `res.json()` cannot parse. The decoding error, not a
`SpotbitException`, propagates out of the accessor. -/
theorem C3_malformed_body_escapes :
    (Spotify.token ⟨none, none, "u", none⟩ (freshState "a" "b") 7
        (.response 200 .malformed)).1 = .error .jsonDecodeError := by decide

/-- C4: whenever the `token` property returns normally at time `now`, and
the network hands back only nonnegative lifetimes, the stored expiry at the
moment of return is at least `now`: the expiry check happens synchronously
before returning. -/
theorem C4_returned_token_unexpired (cfg : Config) (st : SpotifyState)
    (now : Int) (net : PostResult) (v : Option String) (st' : SpotifyState)
    (log : List Request) (httl : ttlNonneg net = true)
    (h : Spotify.token cfg st now net = (.ok v, st', log)) :
    ∃ e, st'._expires_in = some e ∧ now ≤ e := by
  simp only [Spotify.token] at h
  split at h
  · split at h
    · exact absurd h (by simp)
    · rename_i tr heq
      split at h
      · exact absurd h (by simp)
      · rename_i e he
        have h0 : 0 ≤ e := ttl_of_get_token net tr e heq httl he
        simp only [Prod.mk.injEq, Except.ok.injEq] at h
        obtain ⟨-, hst, -⟩ := h
        exact ⟨e + now, by rw [← hst], by omega⟩
  · split at h
    · exact absurd h (by simp)
    · rename_i e he
      split at h
      · split at h
        · exact absurd h (by simp)
        · rename_i tr heq
          split at h
          · exact absurd h (by simp)
          · rename_i e2 he2
            have h0 : 0 ≤ e2 := ttl_of_get_token net tr e2 heq httl he2
            simp only [Prod.mk.injEq, Except.ok.injEq] at h
            obtain ⟨-, hst, -⟩ := h
            exact ⟨e2 + now, by rw [← hst], by omega⟩
      · rename_i hnow
        simp only [Prod.mk.injEq, Except.ok.injEq] at h
        obtain ⟨-, hst, -⟩ := h
        exact ⟨e, by rw [← hst]; exact he, by omega⟩

/-- Witness for C4 at a concrete input: a first fetch at time 5 with
lifetime 3600 stores expiry 3605. -/
theorem C4_returned_token_unexpired_witness :
    ∃ e, (SpotifyState.mk "id" "secret"
        (some (buildSession ⟨none, none, "url", none⟩ 0)) 1
        (some (some "abc")) (some 3605))._expires_in = some e ∧ (5 : Int) ≤ e :=
  C4_returned_token_unexpired ⟨none, none, "url", none⟩
    (freshState "id" "secret") 5
    (.response 200 (.json ⟨some "abc", some 3600⟩)) (some "abc")
    (SpotifyState.mk "id" "secret"
      (some (buildSession ⟨none, none, "url", none⟩ 0)) 1
      (some (some "abc")) (some 3605))
    [Spotify.tokenRequest ⟨none, none, "url", none⟩ (freshState "id" "secret")]
    (by decide) (by decide)

/-- C5: after a first token fetch at time `T` succeeded with body
`{"access_token": "abc", "expires_in": 3600}`, every subsequent read at a
time strictly before `T + 3600` returns `"abc"` unchanged, attempts no
POST, and leaves the state exactly as it was after the first fetch. -/
theorem C5_cached_until_expiry (cfg : Config) (st0 : SpotifyState) (T : Int)
    (reads : List (Int × PostResult)) (h0 : st0._token = none)
    (hts : ∀ p ∈ reads, p.1 < T + 3600) :
    ∃ st1,
      Spotify.token cfg st0 T (.response 200 (.json ⟨some "abc", some 3600⟩)) =
        (.ok (some "abc"), st1, [Spotify.tokenRequest cfg st0]) ∧
      readTokens cfg st1 reads =
        (reads.map fun _ => .ok (some "abc"), st1, []) := by
  refine ⟨_, token_first_fetch_success cfg st0 T 3600 (some "abc") 200 h0
    (by omega), ?_⟩
  exact readTokens_cached cfg _ (some "abc") (3600 + T) reads rfl rfl
    (fun p hp => by have := hts p hp; omega)

/-- Witness for C5 at a concrete input: first fetch at time 0, then reads
at times 5 and 3599 against a network that would answer differently. -/
theorem C5_cached_until_expiry_witness :
    ∃ st1,
      Spotify.token ⟨none, none, "url", none⟩ (freshState "id" "secret") 0
          (.response 200 (.json ⟨some "abc", some 3600⟩)) =
        (.ok (some "abc"), st1,
         [Spotify.tokenRequest ⟨none, none, "url", none⟩
           (freshState "id" "secret")]) ∧
      readTokens ⟨none, none, "url", none⟩ st1
          [(5, .transportError),
           (3599, .response 200 (.json ⟨some "zzz", some 1⟩))] =
        ([.ok (some "abc"), .ok (some "abc")], st1, []) :=
  C5_cached_until_expiry ⟨none, none, "url", none⟩ (freshState "id" "secret")
    0 [(5, .transportError), (3599, .response 200 (.json ⟨some "zzz", some 1⟩))]
    rfl (by decide)

/-- C6: non-empty explicit credentials are accepted and used as given for
*every* configuration, whatever its fallback values hold; and for any
configuration whose client-id fallback is falsy (empty or unset),
construction with no explicit client id raises `ClientException`, the
constructor performing no network request in either case. -/
theorem C6_credential_resolution (cfg : Config) (cid csec : String)
    (csec0 : Option String) (hcid : cid ≠ "") (hcsec : csec ≠ "") :
    Spotify.init cfg (some cid) (some csec) =
      (.ok (freshState cid csec), []) ∧
    (pyTruthy cfg.CLIENT_ID = false →
      ∃ msg, Spotify.init cfg none csec0 =
        (.error (.clientException msg), [])) := by
  have h1 : cid.isEmpty = false := by
    cases hc : cid.isEmpty
    · rfl
    · exact absurd ((String.isEmpty_iff cid).mp hc) hcid
  have h2 : csec.isEmpty = false := by
    cases hc : csec.isEmpty
    · rfl
    · exact absurd ((String.isEmpty_iff csec).mp hc) hcsec
  constructor
  · simp [Spotify.init, resolveCred, pyTruthy, h1, h2]
  · intro hfb
    refine ⟨"Got Client ID " ++ pyStr cfg.CLIENT_ID ++
      ". Either specify as env variables or pass it directly.", ?_⟩
    have hnone : pyTruthy none = false := rfl
    simp [Spotify.init, resolveCred, hnone, hfb]

/-- Witness for C6 at concrete inputs: explicit credentials override a
*set* fallback pair, identically succeed when the fallback is unset, and
with no explicit id an unset fallback raises. -/
theorem C6_credential_resolution_witness :
    (Spotify.init ⟨some "envid", some "envsecret", "url", none⟩ (some "id")
        (some "secret") = (.ok (freshState "id" "secret"), []) ∧
     (pyTruthy (Config.mk (some "envid") (some "envsecret") "url"
         none).CLIENT_ID = false →
       ∃ msg, Spotify.init ⟨some "envid", some "envsecret", "url", none⟩
         none (some "s2") = (.error (.clientException msg), []))) ∧
    (Spotify.init ⟨none, some "fallback", "url", none⟩ (some "id")
        (some "secret") = (.ok (freshState "id" "secret"), []) ∧
     (pyTruthy (Config.mk none (some "fallback") "url" none).CLIENT_ID =
         false →
       ∃ msg, Spotify.init ⟨none, some "fallback", "url", none⟩ none
         (some "s2") = (.error (.clientException msg), []))) :=
  ⟨C6_credential_resolution ⟨some "envid", some "envsecret", "url", none⟩
      "id" "secret" (some "s2") (by decide) (by decide),
   C6_credential_resolution ⟨none, some "fallback", "url", none⟩
      "id" "secret" (some "s2") (by decide) (by decide)⟩

/-- C7: an access in the token-unset state attempts exactly one POST, to
the configured token URL, with form body `grant_type=client_credentials`
and an `Authorization` header equal to `"Basic "` followed by the base64
encoding of `client_id:client_secret`. -/
theorem C7_first_access_single_post (cfg : Config) (st : SpotifyState)
    (now : Int) (net : PostResult) (h : st._token = none) :
    (Spotify.token cfg st now net).2.2 =
      [{ method := "POST", url := cfg.TOKEN_URL
         data := [("grant_type", "client_credentials")]
         authorization := "Basic " ++
           b64encode (utf8Bytes (st.client_id ++ ":" ++ st.client_secret)) }] := by
  simp only [Spotify.token, h]
  cases hg : Spotify._get_token net with
  | error e => rfl
  | ok tr =>
      obtain ⟨atok, ei⟩ := tr
      cases ei <;> rfl

/-- Witness for C7 at a concrete input (even a transport failure attempts
the one POST). -/
theorem C7_first_access_single_post_witness :
    (Spotify.token ⟨none, none, "tokurl", none⟩ (freshState "myid" "mysecret")
        0 .transportError).2.2 =
      [{ method := "POST", url := "tokurl"
         data := [("grant_type", "client_credentials")]
         authorization := "Basic " ++
           b64encode (utf8Bytes ("myid" ++ ":" ++ "mysecret")) }] :=
  C7_first_access_single_post ⟨none, none, "tokurl", none⟩
    (freshState "myid" "mysecret") 0 .transportError rfl

/-- C8: the session created on first access carries a retry policy of
total 5, back-off factor 1/10, exactly the five statuses 408, 500, 502,
503 and 504, a pool whose connection count and max size both equal 5 times
the number of processing units (minimum 1), and a single mount, on the
https scheme. -/
theorem C8_session_configuration (cfg : Config) (st : SpotifyState)
    (h : st._session = none) :
    ∃ a : HTTPAdapter,
      (Spotify.session cfg st).1.mounts = [("https://", a)] ∧
      a.max_retries.total = 5 ∧
      a.max_retries.backoff_factor = mkRat 1 10 ∧
      a.max_retries.status_forcelist = [408, 500, 502, 503, 504] ∧
      a.pool_connections = 5 * max 1 (cfg.cpuCount.getD 1) ∧
      a.pool_maxsize = 5 * max 1 (cfg.cpuCount.getD 1) := by
  have hp : cpuCountOrOne cfg.cpuCount * 5 = 5 * max 1 (cfg.cpuCount.getD 1) := by
    rw [cpuCountOrOne_eq]
    exact Nat.mul_comm _ 5
  refine ⟨⟨⟨5, mkRat 1 10, [408, 500, 502, 503, 504]⟩, cpuCountOrOne cfg.cpuCount * 5, cpuCountOrOne cfg.cpuCount * 5⟩, ?_, rfl, rfl, rfl, hp, hp⟩
  simp only [Spotify.session, h]
  rfl

/-- Witness for C8 at a concrete input: four processing units give pool
sizes 20. -/
theorem C8_session_configuration_witness :
    ∃ a : HTTPAdapter,
      (Spotify.session ⟨none, none, "url", some 4⟩
          (freshState "id" "secret")).1.mounts = [("https://", a)] ∧
      a.max_retries.total = 5 ∧
      a.max_retries.backoff_factor = mkRat 1 10 ∧
      a.max_retries.status_forcelist = [408, 500, 502, 503, 504] ∧
      a.pool_connections =
        5 * max 1 ((Config.mk none none "url" (some 4)).cpuCount.getD 1) ∧
      a.pool_maxsize =
        5 * max 1 ((Config.mk none none "url" (some 4)).cpuCount.getD 1) :=
  C8_session_configuration ⟨none, none, "url", some 4⟩
    (freshState "id" "secret") rfl

/-- C9: reading the `session` property a second time returns exactly the
pair produced by the first read — the same session object and the same
state — and the first read cached precisely the object it returned, so the
session is created at most once per instance and every later access
returns the identical cached object. -/
theorem C9_session_identical_across_reads (cfg : Config) (st : SpotifyState) :
    Spotify.session cfg (Spotify.session cfg st).2 =
      ((Spotify.session cfg st).1, (Spotify.session cfg st).2) ∧
    (Spotify.session cfg st).2._session = some (Spotify.session cfg st).1 := by
  cases h : st._session <;> simp [Spotify.session, h]

/-- C10: a fetch-triggering access whose success response contains
`access_token` but no `expires_in` raises `TypeError` (from
`None + now`), not `SpotbitException`, and only after the `_token`
attribute has already been overwritten with the new access token, while
`_expires_in` keeps whatever value it had (absent on a first fetch, the
stale expiry on a refresh). -/
theorem C10_missing_expiry_typeerror (cfg : Config) (st : SpotifyState)
    (now : Int) (tok : String) (status : Nat) (hstatus : status < 400)
    (hfetch : st._token = none ∨
      ∃ cached e, st._token = some cached ∧ st._expires_in = some e ∧
        e < now) :
    Spotify.token cfg st now (.response status (.json ⟨some tok, none⟩)) =
      (.error .typeError,
       { (Spotify.session cfg st).2 with _token := some (some tok) },
       [Spotify.tokenRequest cfg st]) := by
  rcases hfetch with h | ⟨cached, e, htok, hexp, he⟩
  · simp only [Spotify.token, h, Spotify._get_token]
    rw [if_neg (by omega : ¬ (400 ≤ status ∧ status < 600))]
  · simp only [Spotify.token, htok, hexp, Spotify._get_token]
    rw [if_pos (by omega : now > e),
      if_neg (by omega : ¬ (400 ≤ status ∧ status < 600))]

/-- Witness for C10 at a concrete input: a first fetch whose response lacks
`expires_in`. -/
theorem C10_missing_expiry_typeerror_witness :
    Spotify.token ⟨none, none, "url", none⟩ (freshState "id" "secret") 0
        (.response 200 (.json ⟨some "abc", none⟩)) =
      (.error .typeError,
       { (Spotify.session ⟨none, none, "url", none⟩
           (freshState "id" "secret")).2 with _token := some (some "abc") },
       [Spotify.tokenRequest ⟨none, none, "url", none⟩
         (freshState "id" "secret")]) :=
  C10_missing_expiry_typeerror ⟨none, none, "url", none⟩
    (freshState "id" "secret") 0 "abc" 200 (by decide) (Or.inl rfl)
